import Mathlib

/-!
Verification development for the Instagram-Analytics-Dashboard scraping and
ingestion core.

The definitions below are a shallow embedding of the repository's job
scheduling and ingestion pipeline:

* `public/electron/queue.cjs` — the `ScraperQueue` class (priority queue,
  bounded concurrency, retry with exponential backoff and jitter);
* `public/electron/db.cjs` — the SQLite persistence layer (creator, video,
  metric and scrape-session tables, prepared upsert/insert statements), over
  the schema in `database/migrations` (tables `creators`, `videos`,
  `video_metrics`, `scraping_sessions`);
* `dist/electron/ipc-handlers.cjs` — the composite `scrape:profileAndVideos`
  job that ingests a fetched profile and video batch inside one transaction;
* `public/electron/scraper.cjs` — the pure `parseCount` helper.

JavaScript numbers that the code only ever uses at integer values are
modelled as `Nat`/`Int`; exact decimal values flowing through `parseFloat`
and `Math.round` are modelled as `Rat`.  `SQL NULL`able columns are
`Option`s.  Timestamps (`CURRENT_TIMESTAMP`) are modelled by a logical clock
in the store that strictly increases with every write, so `ORDER BY
recorded_at DESC LIMIT 1` is the newest row; the metric table is kept
newest-first so that this query is `List.find?`.
-/

namespace IG

/-! ## Backoff policy (`backoffDelay`, queue.cjs lines 58-63) -/

/-- Backoff delay from `ScraperQueue.backoffDelay`:
`exp = 2^(attempt-1)`, `base = baseDelayMs * exp`,
`jitter = Math.floor(Math.random() * jitterMs)` and the result is
`base + jitter`.  The random draw `Math.random()` is the parameter
`r`, a rational in `[0, 1)`. -/
def backoffDelay (baseDelayMs jitterMs attempt : ℕ) (r : ℚ) : ℤ :=
  (baseDelayMs : ℤ) * 2 ^ (attempt - 1) + ⌊r * (jitterMs : ℚ)⌋

/-! ## Retry loop for an always-failing task (`runTask`, queue.cjs lines 31-56)

One cycle of `runTask` on a task whose unit of work throws:
the unit of work is invoked once, the `catch` block increments
`task.attempts`, invokes `task.onError`, and then re-enqueues the task via
`setTimeout` only when `attempts < maxRetries`; otherwise the task is
dropped (only a log line is written). -/

/-- Trace counters for a task whose unit of work fails on every attempt:
how often the unit of work was invoked, how often `onError` was invoked,
and how often the task was pushed back onto the queue. -/
structure FailTrace where
  invocations : ℕ
  onErrorCalls : ℕ
  requeues : ℕ
deriving DecidableEq, Repr

/-- Cumulative behaviour of `runTask` for a task that starts at attempt
counter `attempts` and whose unit of work throws on every invocation.
Each cycle mirrors the `catch` block of `runTask`: `attempts` is
incremented, `onError` runs, and the task is re-queued exactly when the
new counter is still below `maxRetries`. -/
def runAlwaysFailing (maxRetries attempts : ℕ) : FailTrace :=
  if h : attempts + 1 < maxRetries then
    let rest := runAlwaysFailing maxRetries (attempts + 1)
    { invocations := rest.invocations + 1
      onErrorCalls := rest.onErrorCalls + 1
      requeues := rest.requeues + 1 }
  else
    { invocations := 1, onErrorCalls := 1, requeues := 0 }
termination_by maxRetries - attempts
decreasing_by omega

/-! ## Queue state machine (`ScraperQueue.add` / `drain` / `runTask`)

JavaScript is single threaded, and `drain` has no suspension point inside
its loop (`runTask` is not awaited and increments `this.active` before its
first `await`), so admission of a pending task is atomic: the check
`active < concurrency` and the increment happen with no interleaving.  The
model below replays the queue as a transition system whose operations are
the three entry points that mutate the queue synchronously:

* `add t` — `add`: push, stable sort by descending priority, drain;
* `finish` — the `finally` block of `runTask`: after the pacing sleep the
  running counter is decremented and the queue drains again;
* `timerRequeue t` — the `setTimeout` callback of the retry path: the task
  is pushed (without re-sorting) and the queue drains.
-/

/-- A queued task: submission identifier and its priority
(`priority: 0` default, higher runs first). -/
structure QTask where
  id : ℕ
  priority : ℤ
deriving DecidableEq, Repr

/-- Stable insertion for a descending-priority order: the new task goes
after every task whose priority is greater than or equal to its own.  This
is the unique stable sort result of the comparator
`(a, b) => (b.priority ?? 0) - (a.priority ?? 0)` used in `add`. -/
def insertByPriority (t : QTask) : List QTask → List QTask
  | [] => [t]
  | u :: us => if t.priority ≤ u.priority then u :: insertByPriority t us else t :: u :: us

/-- Stable sort by descending priority (`this.queue.sort(...)` in `add`). -/
def sortByPriorityDesc (l : List QTask) : List QTask :=
  l.foldl (fun acc t => insertByPriority t acc) []

/-- Queue state: the pending array `this.queue`, the running counter
`this.active`, and the log of task ids in the order their unit of work was
invoked. -/
structure QState where
  pending : List QTask
  active : ℕ
  ran : List ℕ
deriving DecidableEq, Repr

/-- The `drain` loop: `while (active < concurrency && queue.length > 0)`
shift the head task and start it (`runTask` immediately increments
`active`).  Since `active` only grows inside the loop, checking the bound
once per element is equivalent to re-checking it each iteration. -/
def drainAux (c : ℕ) : ℕ → List QTask → List ℕ → ℕ × List QTask × List ℕ
  | active, [], ran => (active, [], ran)
  | active, t :: ts, ran =>
    if active < c then drainAux c (active + 1) ts (ran ++ [t.id])
    else (active, t :: ts, ran)

/-- Drain the queue state with concurrency limit `c`. -/
def drain (c : ℕ) (s : QState) : QState :=
  let r := drainAux c s.active s.pending s.ran
  ⟨r.2.1, r.1, r.2.2⟩

/-- The synchronous operations that mutate the queue. -/
inductive QOp where
  | add (t : QTask)
  | finish
  | timerRequeue (t : QTask)
deriving DecidableEq, Repr

/-- Apply one queue operation (each entry point ends by draining). -/
def applyOp (c : ℕ) (s : QState) : QOp → QState
  | .add t => drain c { s with pending := sortByPriorityDesc (s.pending ++ [t]) }
  | .finish => drain c { s with active := s.active - 1 }
  | .timerRequeue t => drain c { s with pending := s.pending ++ [t] }

/-- Run a sequence of queue operations from the initial state
(empty queue, `active = 0`). -/
def runOps (c : ℕ) (ops : List QOp) : QState :=
  ops.foldl (applyOp c) ⟨[], 0, []⟩

/-! Scenario of claim C4: three tasks with priorities 1, 5, 1 submitted in
that order, concurrency limit 1; each `finish` completes the currently
running task. -/

/-- First submitted task, priority 1. -/
def taskA : QTask := ⟨1, 1⟩

/-- Second submitted task, priority 5. -/
def taskB : QTask := ⟨2, 5⟩

/-- Third submitted task, priority 1. -/
def taskC : QTask := ⟨3, 1⟩

/-- The C4 scenario: submit the three tasks back to back, then let the
running tasks complete one after the other. -/
def scenarioOps : List QOp :=
  [.add taskA, .add taskB, .add taskC, .finish, .finish, .finish]

/-! ## Persistence layer (`db.cjs` over `database/migrations`)

Rows mirror the SQLite schema; nullable columns are `Option`s.  The
`creators.username` column is `COLLATE NOCASE`, so every comparison against
it is case-insensitive; SQLite NOCASE folds exactly the 26 upper-case ASCII
letters, which `asciiLower` mirrors. -/

/-- SQLite NOCASE case folding: upper-case ASCII letters map to their
lower-case counterparts, every other character is unchanged. -/
def asciiLower (c : Char) : Char :=
  if 'A' ≤ c ∧ c ≤ 'Z' then Char.ofNat (c.toNat + 32) else c

/-- Equality of strings under the NOCASE collation. -/
def nocaseEq (a b : String) : Bool :=
  a.toList.map asciiLower == b.toList.map asciiLower

/-- Row of the `creators` table (columns the core logic reads or writes). -/
structure CreatorRow where
  id : ℕ
  username : String
  display_name : Option String
  follower_count : Option ℤ
  following_count : Option ℤ
  posts_count : Option ℤ
  is_verified : Option ℤ
  is_private : Option ℤ
  last_successful_scrape : Option ℕ
  last_scraped : Option ℕ
deriving DecidableEq, Repr

/-- Row of the `videos` table (columns touched by `upsertVideo`). -/
structure VideoRow where
  id : ℕ
  creator_id : ℕ
  instagram_post_id : String
  instagram_shortcode : Option String
  is_reel : ℕ
  caption : Option String
  posted_date : Option String
  video_url : Option String
  thumbnail_url : Option String
deriving DecidableEq, Repr

/-- Row of the `video_metrics` table.  `engagement_rate` is a generated
column (a function of the row, see `engagementRate`), not a stored field. -/
structure MetricRow where
  video_id : ℕ
  views_count : ℤ
  likes_count : ℤ
  comments_count : ℤ
  shares_count : ℤ
  saves_count : ℤ
  likes_delta : ℤ
  views_delta : ℤ
  recorded_at : ℕ
  scrape_session_id : Option String
deriving DecidableEq, Repr

/-- Status values of `scraping_sessions.status`
(`CHECK(status IN ('running','completed','failed','cancelled'))`). -/
inductive SessionStatus where
  | running
  | completed
  | failed
  | cancelled
deriving DecidableEq, Repr

/-- Row of the `scraping_sessions` table. -/
structure SessionRow where
  session_id : String
  creator_id : Option ℕ
  status : SessionStatus
  started_at : ℕ
  completed_at : Option ℕ
  videos_scraped : ℕ
  errors : Option String
  metadata : Option String
deriving DecidableEq, Repr

/-- The database state.  `metrics` is kept newest-first (each insert
prepends), and `clock` is the logical `CURRENT_TIMESTAMP`, bumped by every
writing statement, so `recorded_at` values strictly decrease along
`metrics` and `ORDER BY recorded_at DESC LIMIT 1` is the head of the
filtered list. -/
structure Store where
  creators : List CreatorRow
  videos : List VideoRow
  metrics : List MetricRow
  sessions : List SessionRow
  nextCreatorId : ℕ
  nextVideoId : ℕ
  clock : ℕ
deriving DecidableEq, Repr

/-- The store with no rows. -/
def emptyStore : Store := ⟨[], [], [], [], 1, 1, 0⟩

/-- Errors a prepared statement can raise (SQLite constraint violations)
plus an injected storage failure used to model an aborting transaction,
and the `TypeError` the ingestion job would hit if the creator row were
missing after its upsert. -/
inductive DbError where
  | uniqueViolation (constraint : String)
  | storageFailure (op : String)
  | missingCreator
deriving DecidableEq, Repr

/-- Error message attached to a failed session (`err.message`). -/
def dbErrorMessage : DbError → String
  | .uniqueViolation c => c
  | .storageFailure op => op
  | .missingCreator => "creator missing"

/-- SQL `COALESCE(a, b)`. -/
def coalesce (a b : Option String) : Option String :=
  match a with
  | some x => some x
  | none => b

/-- Lookup `SELECT … FROM creators WHERE username = ?` (NOCASE column). -/
def getCreatorByUsername (st : Store) (username : String) : Option CreatorRow :=
  st.creators.find? (fun r => nocaseEq r.username username)

/-- The `addCreator` statement:
`INSERT OR IGNORE INTO creators (username, display_name) VALUES (?, ?)`.
Count and flag columns take their schema defaults (0). -/
def addCreator (st : Store) (username : String) (displayName : Option String) : Store :=
  if (getCreatorByUsername st username).isSome then st
  else
    { st with
      creators := st.creators ++
        [⟨st.nextCreatorId, username, displayName, some 0, some 0, some 0, some 0, some 0,
          none, none⟩]
      nextCreatorId := st.nextCreatorId + 1
      clock := st.clock + 1 }

/-- Argument record of `upsertCreatorMeta`. -/
structure CreatorMeta where
  username : String
  display_name : Option String
  follower_count : Option ℤ
  following_count : Option ℤ
  posts_count : Option ℤ
  is_verified : Option ℤ
  is_private : Option ℤ
deriving DecidableEq, Repr

/-- The `upsertCreatorMeta` statement: `INSERT INTO creators … ON
CONFLICT(username) DO UPDATE SET` every listed column to the excluded
value and `last_successful_scrape = CURRENT_TIMESTAMP`. -/
def upsertCreatorMeta (st : Store) (meta : CreatorMeta) : Store :=
  match getCreatorByUsername st meta.username with
  | some _ =>
    { st with
      creators := st.creators.map (fun r =>
        if nocaseEq r.username meta.username then
          { r with
            display_name := meta.display_name
            follower_count := meta.follower_count
            following_count := meta.following_count
            posts_count := meta.posts_count
            is_verified := meta.is_verified
            is_private := meta.is_private
            last_successful_scrape := some st.clock }
        else r)
      clock := st.clock + 1 }
  | none =>
    { st with
      creators := st.creators ++
        [⟨st.nextCreatorId, meta.username, meta.display_name, meta.follower_count,
          meta.following_count, meta.posts_count, meta.is_verified, meta.is_private,
          some st.clock, none⟩]
      nextCreatorId := st.nextCreatorId + 1
      clock := st.clock + 1 }

/-- The `touchLastScraped` statement:
`UPDATE creators SET last_scraped = CURRENT_TIMESTAMP WHERE id = ?`. -/
def touchScraped (st : Store) (cid : ℕ) : Store :=
  { st with
    creators := st.creators.map (fun r =>
      if r.id == cid then { r with last_scraped := some st.clock } else r)
    clock := st.clock + 1 }

/-! ### Video upsert (`upsertVideo`, db.cjs lines 121-132) -/

/-- Argument record of `upsertVideo` (the object built by the composite
job from a scraped video). -/
structure VideoInput where
  instagram_post_id : String
  instagram_shortcode : Option String
  is_reel : ℕ
  caption : Option String
  posted_date : Option String
  video_url : Option String
  thumbnail_url : Option String
deriving DecidableEq, Repr

/-- The `DO UPDATE SET` clause of `upsertVideo`: shortcode, reel flag and
caption are overwritten; `posted_date`, `video_url` and `thumbnail_url`
follow the `COALESCE(excluded.x, videos.x)` policy; `creator_id` and
`instagram_post_id` are not in the update list and stay unchanged. -/
def applyVideoConflictUpdate (v : VideoInput) (r : VideoRow) : VideoRow :=
  { r with
    instagram_shortcode := v.instagram_shortcode
    is_reel := v.is_reel
    caption := v.caption
    posted_date := coalesce v.posted_date r.posted_date
    video_url := coalesce v.video_url r.video_url
    thumbnail_url := coalesce v.thumbnail_url r.thumbnail_url }

/-- Check for the `videos.instagram_shortcode` UNIQUE constraint: a
non-null shortcode may not also appear on a row with a different
`instagram_post_id` (NULL shortcodes never conflict). -/
def shortcodeTakenByOther (st : Store) (pid : String) (sc : Option String) : Bool :=
  match sc with
  | none => false
  | some s => st.videos.any (fun r =>
      !(r.instagram_post_id == pid) && r.instagram_shortcode == some s)

/-- The `upsertVideo` statement: `INSERT INTO videos … ON
CONFLICT(instagram_post_id) DO UPDATE SET …`.  A conflict on the natural
key updates the existing row per `applyVideoConflictUpdate`; otherwise a
fresh row (AUTOINCREMENT id) is appended.  Either path throws if it would
violate the UNIQUE constraint on `instagram_shortcode`. -/
def upsertVideo (creatorId : ℕ) (v : VideoInput) (st : Store) : Except DbError Store :=
  match st.videos.find? (fun r => r.instagram_post_id == v.instagram_post_id) with
  | some _ =>
    if shortcodeTakenByOther st v.instagram_post_id v.instagram_shortcode then
      .error (.uniqueViolation "videos.instagram_shortcode")
    else
      .ok { st with
        videos := st.videos.map (fun r =>
          if r.instagram_post_id == v.instagram_post_id then
            applyVideoConflictUpdate v r
          else r)
        clock := st.clock + 1 }
  | none =>
    if shortcodeTakenByOther st v.instagram_post_id v.instagram_shortcode then
      .error (.uniqueViolation "videos.instagram_shortcode")
    else
      .ok { st with
        videos := st.videos ++
          [⟨st.nextVideoId, creatorId, v.instagram_post_id, v.instagram_shortcode,
            v.is_reel, v.caption, v.posted_date, v.video_url, v.thumbnail_url⟩]
        nextVideoId := st.nextVideoId + 1
        clock := st.clock + 1 }

/-- Lookup `SELECT id FROM videos WHERE instagram_post_id = ?`. -/
def getVideoByPostId (st : Store) (pid : String) : Option ℕ :=
  (st.videos.find? (fun r => r.instagram_post_id == pid)).map (fun r => r.id)

/-! ### Metric samples (`getLastMetrics` / `insertVideoMetrics`) -/

/-- The `getLastMetrics` statement: `SELECT likes_count, comments_count,
views_count FROM video_metrics WHERE video_id=? ORDER BY recorded_at DESC
LIMIT 1`.  Since `metrics` is newest-first, this is the first matching
row. -/
def getLastMetrics (st : Store) (vid : ℕ) : Option MetricRow :=
  st.metrics.find? (fun r => r.video_id == vid)

/-- Argument record of `insertVideoMetrics` (counts may be null). -/
structure MetricInput where
  views_count : Option ℤ
  likes_count : Option ℤ
  comments_count : Option ℤ
  shares_count : Option ℤ
  saves_count : Option ℤ
deriving DecidableEq, Repr

/-- The row built by `insertVideoMetrics`: the prior sample is
`getLastMetrics(video_id)` with `{ likes_count: 0, views_count: 0 }` as
default; `likes_delta` / `views_delta` are the incoming count minus the
prior one when the incoming count is non-null, else 0; null counts are
stored as 0 (`?? 0`). -/
def newMetricRow (st : Store) (vid : ℕ) (m : MetricInput) (sid : String) : MetricRow :=
  let lastLikes : ℤ := match getLastMetrics st vid with
    | some r => r.likes_count
    | none => 0
  let lastViews : ℤ := match getLastMetrics st vid with
    | some r => r.views_count
    | none => 0
  { video_id := vid
    views_count := m.views_count.getD 0
    likes_count := m.likes_count.getD 0
    comments_count := m.comments_count.getD 0
    shares_count := m.shares_count.getD 0
    saves_count := m.saves_count.getD 0
    likes_delta := match m.likes_count with
      | some l => l - lastLikes
      | none => 0
    views_delta := match m.views_count with
      | some w => w - lastViews
      | none => 0
    recorded_at := st.clock
    scrape_session_id := some sid }

/-- The `insertVideoMetrics` method: compute the deltas against the most
recent prior sample and append the new fact row (newest-first). -/
def insertVideoMetrics (st : Store) (vid : ℕ) (m : MetricInput) (sid : String) : Store :=
  { st with
    metrics := newMetricRow st vid m sid :: st.metrics
    clock := st.clock + 1 }

/-- The generated column `video_metrics.engagement_rate`:
`CASE WHEN views_count > 0 THEN CAST((likes_count + comments_count +
shares_count + saves_count) AS REAL) / views_count * 100 ELSE 0 END`. -/
def engagementRate (r : MetricRow) : ℚ :=
  if 0 < r.views_count then
    ((r.likes_count + r.comments_count + r.shares_count + r.saves_count : ℤ) : ℚ)
      / (r.views_count : ℚ) * 100
  else 0

/-! ### Scrape sessions (db.cjs lines 107-116 and 171-179) -/

/-- Lookup a session row by its unique `session_id`. -/
def findSession (st : Store) (sid : String) : Option SessionRow :=
  st.sessions.find? (fun r => r.session_id == sid)

/-- The `createScrapeSession` statement: `INSERT INTO scraping_sessions
(session_id, creator_id, status, started_at, metadata) VALUES (…,
'running', CURRENT_TIMESTAMP, …)`; `session_id` is UNIQUE, so inserting an
existing id throws. -/
def beginScrapeSession (st : Store) (sid : String) (creatorId : Option ℕ)
    (metadata : Option String) : Except DbError Store :=
  if (findSession st sid).isSome then
    .error (.uniqueViolation "scraping_sessions.session_id")
  else
    .ok { st with
      sessions := st.sessions ++ [⟨sid, creatorId, .running, st.clock, none, 0, none, metadata⟩]
      clock := st.clock + 1 }

/-- The `completeScrapeSession` statement: `UPDATE scraping_sessions SET
status='completed', completed_at=CURRENT_TIMESTAMP,
videos_scraped=@videos_scraped, errors=NULL WHERE session_id=@session_id`.
There is no guard on the current status. -/
def completeScrapeSession (st : Store) (sid : String) (videosScraped : ℕ) : Store :=
  { st with
    sessions := st.sessions.map (fun r =>
      if r.session_id == sid then
        { r with
          status := .completed
          completed_at := some st.clock
          videos_scraped := videosScraped
          errors := none }
      else r)
    clock := st.clock + 1 }

/-- The `failScrapeSession` statement: `UPDATE scraping_sessions SET
status='failed', completed_at=CURRENT_TIMESTAMP, errors=@errors WHERE
session_id=@session_id`.  No guard on the current status either, and
`videos_scraped` is untouched. -/
def failScrapeSession (st : Store) (sid : String) (errs : String) : Store :=
  { st with
    sessions := st.sessions.map (fun r =>
      if r.session_id == sid then
        { r with
          status := .failed
          completed_at := some st.clock
          errors := some errs }
      else r)
    clock := st.clock + 1 }

/-! ## Composite ingestion job (`scrape:profileAndVideos`,
ipc-handlers.cjs lines 133-195)

The handler enqueues a custom unit of work that: broadcasts `running`,
creates the scrape session, upserts the creator (profile fetch), scrapes
the videos, then — inside one `db.transaction` — upserts every video and
appends its metric sample, and finally marks the session completed; any
error thrown inside the `try` marks the session failed with the error
message and rethrows.  The fetch results (profile and scraped videos) are
inputs of the model; storage failures inside the transaction are injected
through the `failOn` oracle, indexed by the position of the storage call
within the batch. -/

/-- A scraped video as produced by `scraper.scrapeVideos` and consumed by
the ingestion loop. -/
structure ScrapedVideo where
  instagram_post_id : String
  instagram_shortcode : Option String
  is_reel : Bool
  caption : Option String
  posted_date : Option String
  video_url : Option String
  thumbnail_url : Option String
  views_count : Option ℤ
  likes_count : Option ℤ
  comments_count : Option ℤ
  shares_count : Option ℤ
  saves_count : Option ℤ
deriving DecidableEq, Repr

/-- The video-row argument the job builds from a scraped video
(`is_reel: v.is_reel ? 1 : 0`). -/
def videoInputOf (v : ScrapedVideo) : VideoInput :=
  ⟨v.instagram_post_id, v.instagram_shortcode, if v.is_reel then 1 else 0,
    v.caption, v.posted_date, v.video_url, v.thumbnail_url⟩

/-- The metric argument the job builds from a scraped video. -/
def metricInputOf (v : ScrapedVideo) : MetricInput :=
  ⟨v.views_count, v.likes_count, v.comments_count, v.shares_count, v.saves_count⟩

/-- Body of the `db.transaction(() => { for (const v of videos) … })`
loop: upsert the video, look its row id up, and append its metric sample,
counting `videos_scraped`.  `failOn k` injects a storage failure at the
`k`-th storage call of the batch; `opIdx` numbers those calls. -/
def ingestLoop (creatorId : ℕ) (sid : String) (failOn : ℕ → Bool) :
    List ScrapedVideo → ℕ → ℕ → Store → Except DbError (Store × ℕ)
  | [], _, count, st => .ok (st, count)
  | v :: rest, opIdx, count, st =>
    if failOn opIdx then .error (.storageFailure "upsertVideo") else
    match upsertVideo creatorId (videoInputOf v) st with
    | .error e => .error e
    | .ok st1 =>
      match getVideoByPostId st1 v.instagram_post_id with
      | some vid =>
        if failOn (opIdx + 1) then .error (.storageFailure "insertVideoMetrics") else
        ingestLoop creatorId sid failOn rest (opIdx + 2) (count + 1)
          (insertVideoMetrics st1 vid (metricInputOf v) sid)
      | none => ingestLoop creatorId sid failOn rest (opIdx + 1) count st1

/-- Semantics of better-sqlite3 `db.transaction(fn)()`: the body runs
inside `BEGIN`/`COMMIT`; if it throws, the whole transaction rolls back
and the store is unchanged. -/
def runTransaction (st : Store)
    (body : Store → Except DbError (Store × ℕ)) : Store × Except DbError ℕ :=
  match body st with
  | .ok (st1, n) => (st1, .ok n)
  | .error e => (st, .error e)

/-- Lines 145-155 of the handler: `const existing =
db.getCreatorByUsername(username); if (!existing) db.addCreator(...)`. -/
def ensureCreator (st1 : Store) (username : String) (displayName : Option String) : Store :=
  if (getCreatorByUsername st1 username).isSome then st1
  else addCreator st1 username displayName

/-- The creator part of the job: ensure the row exists, then upsert the
profile metadata (the handler passes nulls for all counts and flags). -/
def creatorUpsertStage (st1 : Store) (username : String) (displayName : Option String) : Store :=
  upsertCreatorMeta (ensureCreator st1 username displayName)
    ⟨username, displayName, none, none, none, none, none⟩

/-- Session epilogue on the transaction result: on success the session is
completed with the count and the creator touched; on an error the session
is failed with the error message and the error rethrown. -/
def sessionFinishStage (txres : Store × Except DbError ℕ) (sid : String) (creatorId : ℕ) :
    Store × Except DbError ℕ :=
  match txres with
  | (st4, .ok n) => (touchScraped (completeScrapeSession st4 sid n) creatorId, .ok n)
  | (st4, .error e) => (failScrapeSession st4 sid (dbErrorMessage e), .error e)

/-- The `try` block of the unit of work after the session row exists:
creator upserts, then the transactional video/metric batch, then the
session transition — `completed` on success, `failed` with the error
message when anything inside throws (the error is also rethrown, which is
the second component). -/
def profileAndVideosBody (st1 : Store) (username : String) (displayName : Option String)
    (vids : List ScrapedVideo) (sid : String) (failOn : ℕ → Bool) :
    Store × Except DbError ℕ :=
  match getCreatorByUsername (creatorUpsertStage st1 username displayName) username with
  | none =>
    (failScrapeSession (creatorUpsertStage st1 username displayName) sid
      (dbErrorMessage .missingCreator), .error .missingCreator)
  | some creator =>
    sessionFinishStage
      (runTransaction (creatorUpsertStage st1 username displayName)
        (ingestLoop creator.id sid failOn vids 0 0))
      sid creator.id

/-- The unit of work of `scrape:profileAndVideos` after both fetches have
returned (`displayName` from the profile fetch, `vids` from the video
fetch).  Returns the final store and either the `videos_scraped` count or
the error it rethrows.  `beginScrapeSession` runs before the `try`, so a
duplicate session id propagates without marking the session failed. -/
def profileAndVideosRun (st : Store) (username : String) (displayName : Option String)
    (vids : List ScrapedVideo) (sid : String) (failOn : ℕ → Bool) :
    Store × Except DbError ℕ :=
  match beginScrapeSession st sid none (some username) with
  | .error e => (st, .error e)
  | .ok st1 => profileAndVideosBody st1 username displayName vids sid failOn

/-! ## Count parsing (`parseCount`, scraper.cjs lines 47-61)

```
parseCount(raw) {
  if (raw == null) return 0;
  const s = String(raw).trim().replace(/[,\s]/g, '');
  const m = s.match(/([0-9]*\.?[0-9]+)([kmbKMB])?/);
  if (!m) {
    const n = Number(s.replace(/[^0-9.]/g, ''));
    return isNaN(n) ? 0 : Math.floor(n);
  }
  const val = parseFloat(m[1]);
  const suf = m[2]?.toLowerCase();
  if (suf === 'k') return Math.round(val * 1e3);
  ...
}
```

The input is modelled as `Option String` (`null` is `none`; a numeric
argument stands for its `String(raw)` rendering).  `parseFloat` values and
the scaling arithmetic are modelled exactly over `Rat`; `Math.round(x)`
is `⌊x + 1/2⌋` and `Math.floor` is `⌊·⌋`.  `\s` covers the ASCII
whitespace characters (the scraped count strings are ASCII). -/

/-- JavaScript `\s` on the ASCII range. -/
def isJsSpace (c : Char) : Bool :=
  c == ' ' || c == '\t' || c == '\n' || c == '\r' || c == '\x0b' || c == '\x0c'

/-- Effect of `.trim().replace(/[,\s]/g, '')`: every whitespace character
and comma is removed (trim only removes characters the global replace
removes anyway). -/
def stripSeparators (s : List Char) : List Char :=
  s.filter (fun c => !(isJsSpace c || c == ','))

/-- Split off the maximal leading run of decimal digits. -/
def takeDigits : List Char → List Char × List Char
  | [] => ([], [])
  | c :: cs =>
    if c.isDigit then ((takeDigits cs).1.cons c, (takeDigits cs).2)
    else ([], c :: cs)

/-- Numeric value of a digit run. -/
def digitsToNat (ds : List Char) : ℕ :=
  ds.foldl (fun a c => 10 * a + (c.toNat - '0'.toNat)) 0

/-- Exact value of the decimal literal with integer digits `ip` and
fraction digits `fp` (the value `parseFloat` reads, taken exactly). -/
def decimalValue (ip fp : List Char) : ℚ :=
  (digitsToNat ip : ℚ) + (digitsToNat fp : ℚ) / (10 : ℚ) ^ fp.length

/-- Match of `([0-9]*\.?[0-9]+)` anchored at the head of `s`: either a
digit run optionally followed by `.` and a second digit run, or `.`
followed by a digit run.  Returns the captured value and the remaining
characters (greedy semantics with backtracking: a trailing `.` without a
digit after it is left unconsumed). -/
def matchNumberAt (s : List Char) : Option (ℚ × List Char) :=
  match s with
  | [] => none
  | c :: cs =>
    if c.isDigit then
      match takeDigits (c :: cs) with
      | (ip, '.' :: c2 :: rest2) =>
        if c2.isDigit then
          some (decimalValue ip (takeDigits (c2 :: rest2)).1, (takeDigits (c2 :: rest2)).2)
        else some (decimalValue ip [], '.' :: c2 :: rest2)
      | (ip, other) => some (decimalValue ip [], other)
    else if c == '.' then
      match cs with
      | c2 :: rest2 =>
        if c2.isDigit then
          some (decimalValue [] (takeDigits (c2 :: rest2)).1, (takeDigits (c2 :: rest2)).2)
        else none
      | [] => none
    else none

/-- First match of `([0-9]*\.?[0-9]+)` in `s` (the regex engine scans for
the leftmost position where the pattern matches). -/
def firstNumberMatch : List Char → Option (ℚ × List Char)
  | [] => none
  | c :: cs =>
    match matchNumberAt (c :: cs) with
    | some r => some r
    | none => firstNumberMatch cs

/-- Scale of the optional `([kmbKMB])?` capture read right after the
number, lower-cased: `k → 1e3`, `m → 1e6`, `b → 1e9`, absent → 1. -/
def suffixScale (rest : List Char) : ℚ :=
  match rest with
  | [] => 1
  | c :: _ =>
    if c == 'k' || c == 'K' then 1000
    else if c == 'm' || c == 'M' then 1000000
    else if c == 'b' || c == 'B' then 1000000000
    else 1

/-- JavaScript `Math.round`: half-up rounding toward positive infinity. -/
def jsRound (q : ℚ) : ℤ := ⌊q + 1 / 2⌋

/-- Effect of `.replace(/[^0-9.]/g, '')`: keep only digits and dots. -/
def keepDigitsDots (s : List Char) : List Char :=
  s.filter (fun c => c.isDigit || c == '.')

/-- JavaScript `Number()` on a string of digits and dots: the empty string
is 0; `digits`, `digits.`, `.digits` and `digits.digits` parse exactly;
anything else (a bare dot, two dots) is `NaN`, returned as `none`. -/
def jsNumberOfDigitsDots (s : List Char) : Option ℚ :=
  match s with
  | [] => some 0
  | _ =>
    match takeDigits s with
    | (ip, []) => some (decimalValue ip [])
    | (ip, '.' :: rest) =>
      match takeDigits rest with
      | (fp, []) => if ip.isEmpty && fp.isEmpty then none else some (decimalValue ip fp)
      | _ => none
    | _ => none

/-- The `parseCount` helper of `scraper.cjs` (also mirrored verbatim by
the unit-test file): every return path goes through `Math.round`,
`Math.floor` or the literal 0, so the result is an integer. -/
def parseCount (raw : Option String) : ℤ :=
  match raw with
  | none => 0
  | some str =>
    match firstNumberMatch (stripSeparators str.toList) with
    | some (val, rest) => jsRound (val * suffixScale rest)
    | none =>
      match jsNumberOfDigitsDots (keepDigitsDots (stripSeparators str.toList)) with
      | some q => ⌊q⌋
      | none => 0

/-! ## Helper lemmas about list-backed tables -/

/-- Replacing rows in place (an SQL UPDATE keyed by predicate `p`) commutes
with a keyed lookup, provided the update preserves the key. -/
theorem find?_map_ite {α : Type} (p : α → Bool) (f : α → α) (l : List α)
    (hf : ∀ a, p a = true → p (f a) = true) :
    (l.map (fun a => if p a then f a else a)).find? p = (l.find? p).map f := by
  induction l with
  | nil => rfl
  | cons a l ih =>
    cases hpa : p a with
    | true =>
      simp only [List.map_cons, hpa, if_true, List.find?_cons, hf a hpa, Option.map_some']
    | false =>
      simp [List.find?_cons, hpa, ih]

/-- A keyed in-place update does not change how many rows match the key. -/
theorem length_filter_map_ite {α : Type} (p : α → Bool) (f : α → α) (l : List α)
    (hf : ∀ a, p a = true → p (f a) = true) :
    ((l.map (fun a => if p a then f a else a)).filter p).length = (l.filter p).length := by
  induction l with
  | nil => rfl
  | cons a l ih =>
    cases hpa : p a with
    | true =>
      simp only [List.map_cons, hpa, if_true, List.filter_cons, hf a hpa, List.length_cons, ih]
    | false =>
      simp [List.filter_cons, hpa, ih]

/-- Searching an appended list when the first part has no match. -/
theorem find?_append_none {α : Type} (p : α → Bool) {l1 : List α} (l2 : List α)
    (h : l1.find? p = none) : (l1 ++ l2).find? p = l2.find? p := by
  induction l1 with
  | nil => rfl
  | cons a l ih =>
    cases hpa : p a with
    | true => rw [List.find?_cons_of_pos _ hpa] at h; cases h
    | false =>
      rw [List.find?_cons_of_neg _ (by simp [hpa])] at h
      rw [List.cons_append, List.find?_cons_of_neg _ (by simp [hpa])]
      exact ih h

/-! ## Claim C7 — backoff bounds -/

/-- C7: for every attempt `a ≥ 1`, every positive jitter bound and every
value of the bounded random draw `r ∈ [0,1)`, the backoff delay satisfies
`base_delay * 2^(a-1) ≤ backoff(a) < base_delay * 2^(a-1) + jitter_max`;
the function is pure, fully determined by
`(attempt, base_delay, jitter_max, random draw)`. -/
theorem backoff_delay_bounds (baseDelayMs jitterMs attempt : ℕ) (r : ℚ)
    (_hattempt : 1 ≤ attempt) (hjit : 0 < jitterMs) (hr0 : 0 ≤ r) (hr1 : r < 1) :
    (baseDelayMs : ℤ) * 2 ^ (attempt - 1) ≤ backoffDelay baseDelayMs jitterMs attempt r ∧
    backoffDelay baseDelayMs jitterMs attempt r
      < (baseDelayMs : ℤ) * 2 ^ (attempt - 1) + (jitterMs : ℤ) := by
  unfold backoffDelay
  constructor
  · have hfloor : (0 : ℤ) ≤ ⌊r * (jitterMs : ℚ)⌋ :=
      Int.floor_nonneg.mpr (mul_nonneg hr0 (by positivity))
    exact le_add_of_nonneg_right hfloor
  · have hjq : (0 : ℚ) < (jitterMs : ℚ) := by exact_mod_cast hjit
    have hlt : r * (jitterMs : ℚ) < (jitterMs : ℚ) := by
      calc r * (jitterMs : ℚ) < 1 * (jitterMs : ℚ) := mul_lt_mul_of_pos_right hr1 hjq
        _ = (jitterMs : ℚ) := one_mul _
    have hfloor : ⌊r * (jitterMs : ℚ)⌋ < (jitterMs : ℤ) := Int.floor_lt.mpr (by exact_mod_cast hlt)
    exact add_lt_add_left hfloor _

/-- Witness for `backoff_delay_bounds` at the queue's default parameters
(`baseDelayMs = 1000`, `jitterMs = 250`) with `attempt = 1` and `r = 1/2`. -/
theorem backoff_delay_bounds_witness :
    (1000 : ℤ) * 2 ^ (1 - 1) ≤ backoffDelay 1000 250 1 (1 / 2) ∧
    backoffDelay 1000 250 1 (1 / 2) < (1000 : ℤ) * 2 ^ (1 - 1) + (250 : ℤ) :=
  backoff_delay_bounds 1000 250 1 (1 / 2) (by norm_num) (by norm_num) (by norm_num) (by norm_num)

/-! ## Claim C3 — retry ceiling and error events -/

/-- Closed form of the always-failing retry loop: starting below the
ceiling, a task is invoked `maxRetries - attempts` more times, `onError`
runs on each of those failures, and the task is re-queued on all but the
last one. -/
theorem runAlwaysFailing_closed : ∀ (k maxRetries a : ℕ), maxRetries - a = k → a < maxRetries →
    runAlwaysFailing maxRetries a =
      ⟨maxRetries - a, maxRetries - a, maxRetries - a - 1⟩ := by
  intro k
  induction k with
  | zero =>
    intro mr a hk ha
    exact absurd hk (by omega)
  | succ n ih =>
    intro mr a hk ha
    unfold runAlwaysFailing
    by_cases h : a + 1 < mr
    · rw [dif_pos h, ih mr (a + 1) (by omega) h]
      simp only [FailTrace.mk.injEq]
      refine ⟨by omega, by omega, by omega⟩
    · rw [dif_neg h]
      simp only [FailTrace.mk.injEq]
      refine ⟨by omega, by omega, by omega⟩

/-- C3 counterexample: with the default `maxRetries = 3`, a task whose
unit of work always fails has `onError` invoked three times — once per
failed attempt, since `runTask` calls `task.onError` before checking
`attempts < maxRetries` — not exactly once at terminal failure. -/
theorem retry_onerror_not_once :
    (runAlwaysFailing 3 0).onErrorCalls = 3 ∧ (runAlwaysFailing 3 0).onErrorCalls ≠ 1 := by
  rw [runAlwaysFailing_closed 3 3 0 rfl (by omega)]
  exact ⟨rfl, by decide⟩

/-- C3 (amended): a task whose unit of work fails on every attempt is
invoked exactly `maxRetries` times and re-enqueued after a backoff delay
exactly while `attempts < maxRetries` (so `maxRetries - 1` times), and is
never re-enqueued afterwards; but the `onError` progress callback fires on
every failed attempt — `maxRetries` times in total — not exactly once at
terminal failure. -/
theorem retry_ceiling_behavior (maxRetries : ℕ) (h : 1 ≤ maxRetries) :
    (runAlwaysFailing maxRetries 0).invocations = maxRetries ∧
    (runAlwaysFailing maxRetries 0).onErrorCalls = maxRetries ∧
    (runAlwaysFailing maxRetries 0).requeues = maxRetries - 1 := by
  rw [runAlwaysFailing_closed (maxRetries - 0) maxRetries 0 rfl (by omega)]
  refine ⟨by simp, by simp, by simp⟩

/-- Witness for `retry_ceiling_behavior` at the default `maxRetries = 3`. -/
theorem retry_ceiling_behavior_witness :
    (runAlwaysFailing 3 0).invocations = 3 ∧
    (runAlwaysFailing 3 0).onErrorCalls = 3 ∧
    (runAlwaysFailing 3 0).requeues = 2 :=
  retry_ceiling_behavior 3 (by norm_num)

/-! ## Claim C4 — priority ordering scenario -/

/-- C4 counterexample: in the `[1, 5, 1]` submission scenario with
concurrency 1, the first unit of work to run is the first priority-1 task
(`add` drains immediately, and a slot is free when the first task is
submitted), not the priority-5 task, and the overall run order is not
`[5-task, 1-task, 1-task]`. -/
theorem priority_scenario_counterexample :
    (runOps 1 scenarioOps).ran.head? ≠ some taskB.id ∧
    (runOps 1 scenarioOps).ran ≠ [taskB.id, taskA.id, taskC.id] := by decide

/-- C4 (amended): submitting priorities `[1, 5, 1]` under concurrency 1
runs the first priority-1 task immediately upon submission (the queue is
empty and a slot is free), then the priority-5 task, then the second
priority-1 task; among tasks left waiting in the pending set, higher
priority comes first and ties keep submission order (stable sort on each
submit). -/
theorem priority_scenario_run_order :
    (runOps 1 scenarioOps).ran = [taskA.id, taskB.id, taskC.id] ∧
    (runOps 1 [QOp.add taskA, QOp.add taskB, QOp.add taskC]).pending = [taskB, taskC] := by
  decide

/-! ## Claim C8 — bounded concurrency -/

/-- Draining never raises the running counter above the concurrency
limit. -/
theorem drainAux_le (c : ℕ) : ∀ (pending : List QTask) (active : ℕ) (ran : List ℕ),
    active ≤ c → (drainAux c active pending ran).1 ≤ c := by
  intro pending
  induction pending with
  | nil =>
    intro active ran h
    simpa [drainAux] using h
  | cons t ts ih =>
    intro active ran h
    by_cases hc : active < c
    · simpa [drainAux, hc] using ih (active + 1) (ran ++ [t.id]) (by omega)
    · simpa [drainAux, hc] using h

/-- Every queue operation preserves the concurrency bound. -/
theorem applyOp_le (c : ℕ) (s : QState) (op : QOp) (h : s.active ≤ c) :
    (applyOp c s op).active ≤ c := by
  cases op with
  | add t => exact drainAux_le c _ _ _ h
  | finish => exact drainAux_le c _ _ _ (Nat.le_trans (Nat.sub_le s.active 1) h)
  | timerRequeue t => exact drainAux_le c _ _ _ h

/-- C8: along every sequence of submit, drain, task-completion and retry
re-queue operations, the number of running tasks never exceeds the
concurrency limit (2 by default): a unit of work is only started while
`active < concurrency`, `active` is incremented at admission and only
decremented when the attempt (plus pacing) finishes. -/
theorem queue_concurrency_bounded (c : ℕ) (ops : List QOp) : (runOps c ops).active ≤ c := by
  have key : ∀ (l : List QOp) (s : QState), s.active ≤ c →
      (l.foldl (applyOp c) s).active ≤ c := by
    intro l
    induction l with
    | nil =>
      intro s h
      simpa using h
    | cons op rest ih =>
      intro s h
      rw [List.foldl_cons]
      exact ih _ (applyOp_le c s op h)
  exact key ops ⟨[], 0, []⟩ (Nat.zero_le c)

/-! ## Claim C9 — derived engagement rate -/

/-- C9: the engagement rate of every stored metric row is derived from
the stored counters — it is not part of the ingestion input
(`MetricInput` has no such field): for the row appended by
`insertVideoMetrics` it equals
`(likes + comments + shares + saves) / views * 100` when the stored view
count is positive and 0 when it is 0. -/
theorem engagement_rate_derived (st : Store) (vid : ℕ) (m : MetricInput) (sid : String) :
    engagementRate (newMetricRow st vid m sid) =
      if 0 < m.views_count.getD 0 then
        ((m.likes_count.getD 0 + m.comments_count.getD 0 + m.shares_count.getD 0
            + m.saves_count.getD 0 : ℤ) : ℚ) / ((m.views_count.getD 0 : ℤ) : ℚ) * 100
      else 0 := by
  rfl

/-! ## Claim C1 — metric deltas against the last sample -/

/-- First metric ingestion of the C1 scenario: likes 100, views 500. -/
def mFirst : MetricInput := ⟨some 500, some 100, some 3, some 0, some 0⟩

/-- Second metric ingestion of the C1 scenario: likes 130, views 600. -/
def mSecond : MetricInput := ⟨some 600, some 130, some 4, some 0, some 0⟩

/-- C1 counterexample: ingesting a post with `likes = 100` and no prior
sample stores `likes_delta = 100` (the prior sample defaults to the zero
sample, so the delta is the raw counter), not `likes_delta = 0` as the
claim states. -/
theorem metric_first_delta_counterexample :
    ((insertVideoMetrics emptyStore 1 mFirst "s1").metrics.map
        (fun r => (r.likes_delta, r.views_delta))) = [(100, 500)] ∧
    (100 : ℤ) ≠ 0 := by decide

/-- C1 (amended): the stored `likes_delta`/`views_delta` equal the new
counter value minus the counter of the most recently recorded prior
sample for that post, where a missing prior sample counts as the zero
sample — so a first ingestion with `likes = 100` stores
`likes_delta = 100`, a second ingestion with `likes = 130` stores
`likes_delta = 30`, and a null incoming counter stores delta 0. -/
theorem metric_deltas_vs_last_sample (st : Store) (vid : ℕ) (m1 m2 : MetricInput)
    (sid1 sid2 : String) (hprior : getLastMetrics st vid = none) :
    (newMetricRow st vid m1 sid1).likes_delta = m1.likes_count.getD 0 ∧
    (newMetricRow st vid m1 sid1).views_delta = m1.views_count.getD 0 ∧
    getLastMetrics (insertVideoMetrics st vid m1 sid1) vid = some (newMetricRow st vid m1 sid1) ∧
    (newMetricRow (insertVideoMetrics st vid m1 sid1) vid m2 sid2).likes_delta =
      (match m2.likes_count with
        | some l => l - (newMetricRow st vid m1 sid1).likes_count
        | none => 0) ∧
    (newMetricRow (insertVideoMetrics st vid m1 sid1) vid m2 sid2).views_delta =
      (match m2.views_count with
        | some w => w - (newMetricRow st vid m1 sid1).views_count
        | none => 0) := by
  have hlast : getLastMetrics (insertVideoMetrics st vid m1 sid1) vid
      = some (newMetricRow st vid m1 sid1) := by
    unfold getLastMetrics insertVideoMetrics
    rw [List.find?_cons_of_pos]
    simp [newMetricRow]
  refine ⟨?_, ?_, hlast, ?_, ?_⟩
  · cases hm : m1.likes_count <;> simp [newMetricRow, hprior, hm]
  · cases hm : m1.views_count <;> simp [newMetricRow, hprior, hm]
  · cases hm : m2.likes_count <;> simp only [newMetricRow, hlast, hm]
  · cases hm : m2.views_count <;> simp only [newMetricRow, hlast, hm]

/-- Witness for `metric_deltas_vs_last_sample`: a post with no prior
sample ingested with likes 100 / views 500, then with likes 130 /
views 600, stores deltas (100, 500) and then (30, 100). -/
theorem metric_deltas_vs_last_sample_witness :
    (newMetricRow emptyStore 1 mFirst "s1").likes_delta = 100 ∧
    (newMetricRow emptyStore 1 mFirst "s1").views_delta = 500 ∧
    getLastMetrics (insertVideoMetrics emptyStore 1 mFirst "s1") 1
      = some (newMetricRow emptyStore 1 mFirst "s1") ∧
    (newMetricRow (insertVideoMetrics emptyStore 1 mFirst "s1") 1 mSecond "s2").likes_delta = 30 ∧
    (newMetricRow (insertVideoMetrics emptyStore 1 mFirst "s1") 1 mSecond "s2").views_delta
      = 100 :=
  metric_deltas_vs_last_sample emptyStore 1 mFirst mSecond "s1" "s2" rfl

/-! ## Claim C2 — session terminal transitions -/

/-- A store holding a single already-completed session `"s"`
(completed at clock 10 with `videos_scraped = 5`), current clock 20. -/
def sessionDoneStore : Store :=
  { emptyStore with
    sessions := [⟨"s", none, .completed, 0, some 10, 5, none, none⟩]
    clock := 20 }

/-- C2 counterexample: calling `completeScrapeSession` a second time on an
already-completed session is not rejected — there is no status guard and
no `InvalidStateError` — and it overwrites the stored terminal state:
`videos_scraped` changes from 5 to 7 and `completed_at` from 10 to 20. -/
theorem session_complete_twice_counterexample :
    (findSession (completeScrapeSession sessionDoneStore "s" 7) "s").map
        (fun r => (r.status, r.videos_scraped, r.completed_at))
      = some (SessionStatus.completed, 7, some 20) ∧
    (7 : ℕ) ≠ 5 ∧ some (20 : ℕ) ≠ some 10 := by decide

/-- Effect of the unguarded `completeScrapeSession` UPDATE on a keyed
session lookup. -/
theorem findSession_complete (st : Store) (sid : String) (n : ℕ) :
    findSession (completeScrapeSession st sid n) sid =
      (findSession st sid).map (fun r =>
        { r with
          status := .completed
          completed_at := some st.clock
          videos_scraped := n
          errors := none }) :=
  find?_map_ite (fun (q : SessionRow) => q.session_id == sid)
    (fun (q : SessionRow) =>
      { q with
        status := .completed
        completed_at := some st.clock
        videos_scraped := n
        errors := none })
    st.sessions (fun _ ha => ha)

/-- Effect of the unguarded `failScrapeSession` UPDATE on a keyed session
lookup. -/
theorem findSession_fail (st : Store) (sid : String) (msg : String) :
    findSession (failScrapeSession st sid msg) sid =
      (findSession st sid).map (fun r =>
        { r with
          status := .failed
          completed_at := some st.clock
          errors := some msg }) :=
  find?_map_ite (fun (q : SessionRow) => q.session_id == sid)
    (fun (q : SessionRow) =>
      { q with
        status := .failed
        completed_at := some st.clock
        errors := some msg })
    st.sessions (fun _ ha => ha)

/-- C2 (amended): `complete`/`fail` are unguarded updates keyed only by
`session_id`: whatever the current status of the stored session row, a
`complete` call silently succeeds and overwrites status, `completed_at`,
`videos_scraped` and `errors`, and a `fail` call silently succeeds and
overwrites status, `completed_at` and `errors` — so a session's terminal
state can be rewritten and no `InvalidStateError` exists. -/
theorem session_terminal_overwrite (st : Store) (sid : String) (r : SessionRow) (n : ℕ)
    (msg : String) (hfind : findSession st sid = some r) :
    findSession (completeScrapeSession st sid n) sid =
      some { r with
        status := .completed
        completed_at := some st.clock
        videos_scraped := n
        errors := none } ∧
    findSession (failScrapeSession st sid msg) sid =
      some { r with
        status := .failed
        completed_at := some st.clock
        errors := some msg } := by
  constructor
  · rw [findSession_complete, hfind]
    rfl
  · rw [findSession_fail, hfind]
    rfl

/-- Witness for `session_terminal_overwrite` on the already-completed
session of `sessionDoneStore`. -/
theorem session_terminal_overwrite_witness :
    findSession (completeScrapeSession sessionDoneStore "s" 9) "s"
      = some ⟨"s", none, .completed, 0, some 20, 9, none, none⟩ ∧
    findSession (failScrapeSession sessionDoneStore "s" "boom") "s"
      = some ⟨"s", none, .failed, 0, some 20, 5, some "boom", none⟩ :=
  session_terminal_overwrite sessionDoneStore "s"
    ⟨"s", none, .completed, 0, some 10, 5, none, none⟩ 9 "boom" rfl

/-! ## Claim C6 — video upsert idempotence and COALESCE policy -/

/-- Number of stored rows with the given external post id. -/
def countPostId (st : Store) (pid : String) : ℕ :=
  (st.videos.filter (fun r => r.instagram_post_id == pid)).length

/-- A list with no match for `p` filters to the empty list. -/
theorem filter_nil_of_find?_none {α : Type} (p : α → Bool) :
    ∀ l : List α, l.find? p = none → l.filter p = [] := by
  intro l
  induction l with
  | nil => intro _; rfl
  | cons a t ih =>
    intro h
    cases hpa : p a with
    | true => rw [List.find?_cons_of_pos _ hpa] at h; cases h
    | false =>
      rw [List.find?_cons_of_neg _ (by simp [hpa])] at h
      simp [List.filter_cons, hpa, ih h]

/-- A successful keyed lookup means at least one row matches. -/
theorem one_le_count_of_find?_some {α : Type} (p : α → Bool) :
    ∀ (l : List α) (a : α), l.find? p = some a → 1 ≤ (l.filter p).length := by
  intro l
  induction l with
  | nil => intro a h; cases h
  | cons x t ih =>
    intro a h
    cases hpx : p x with
    | true => simp [List.filter_cons, hpx]
    | false =>
      rw [List.find?_cons_of_neg _ (by simp [hpx])] at h
      simpa [List.filter_cons, hpx] using ih a h

/-- When the natural key is already present, a successful `upsertVideo`
takes the `ON CONFLICT DO UPDATE` path. -/
theorem upsertVideo_ok_found {cid : ℕ} {v : VideoInput} {st st1 : Store} {r0 : VideoRow}
    (hfind : st.videos.find? (fun r => r.instagram_post_id == v.instagram_post_id) = some r0)
    (h : upsertVideo cid v st = .ok st1) :
    st1.videos = st.videos.map (fun r =>
      if r.instagram_post_id == v.instagram_post_id then applyVideoConflictUpdate v r
      else r) := by
  have hdef : upsertVideo cid v st =
      (if shortcodeTakenByOther st v.instagram_post_id v.instagram_shortcode = true then
        Except.error (DbError.uniqueViolation "videos.instagram_shortcode")
      else
        Except.ok { st with
          videos := st.videos.map (fun r =>
            if r.instagram_post_id == v.instagram_post_id then applyVideoConflictUpdate v r
            else r)
          clock := st.clock + 1 }) := by
    unfold upsertVideo
    rw [hfind]
  rw [hdef] at h
  by_cases hsc : shortcodeTakenByOther st v.instagram_post_id v.instagram_shortcode = true
  · rw [if_pos hsc] at h
    exact Except.noConfusion h
  · rw [if_neg hsc] at h
    injection h with h
    rw [← h]

/-- When the natural key is absent, a successful `upsertVideo` inserts a
single fresh row. -/
theorem upsertVideo_ok_not_found {cid : ℕ} {v : VideoInput} {st st1 : Store}
    (hfind : st.videos.find? (fun r => r.instagram_post_id == v.instagram_post_id) = none)
    (h : upsertVideo cid v st = .ok st1) :
    st1.videos = st.videos ++
      [⟨st.nextVideoId, cid, v.instagram_post_id, v.instagram_shortcode, v.is_reel,
        v.caption, v.posted_date, v.video_url, v.thumbnail_url⟩] := by
  have hdef : upsertVideo cid v st =
      (if shortcodeTakenByOther st v.instagram_post_id v.instagram_shortcode = true then
        Except.error (DbError.uniqueViolation "videos.instagram_shortcode")
      else
        Except.ok { st with
          videos := st.videos ++
            [⟨st.nextVideoId, cid, v.instagram_post_id, v.instagram_shortcode, v.is_reel,
              v.caption, v.posted_date, v.video_url, v.thumbnail_url⟩]
          nextVideoId := st.nextVideoId + 1
          clock := st.clock + 1 }) := by
    unfold upsertVideo
    rw [hfind]
  rw [hdef] at h
  by_cases hsc : shortcodeTakenByOther st v.instagram_post_id v.instagram_shortcode = true
  · rw [if_pos hsc] at h
    exact Except.noConfusion h
  · rw [if_neg hsc] at h
    injection h with h
    rw [← h]

/-- C6: upserting the same video twice with identical input leaves exactly
one stored row for its external post id, and a second upsert that changes
only the caption while supplying null `posted_date`, `video_url` and
`thumbnail_url` keeps the previously stored values of those three fields
(`COALESCE(excluded, old)`), storing the new caption. -/
theorem video_upsert_idempotent_coalesce
    (st st1 st2 st3 : Store) (cid cid2 : ℕ) (v v2 : VideoInput) (r1 : VideoRow)
    (hwf : countPostId st v.instagram_post_id ≤ 1)
    (h1 : upsertVideo cid v st = .ok st1)
    (h2 : upsertVideo cid v st1 = .ok st2)
    (hr1 : st1.videos.find? (fun r => r.instagram_post_id == v.instagram_post_id) = some r1)
    (hkey : v2.instagram_post_id = v.instagram_post_id)
    (hpd : v2.posted_date = none) (hvu : v2.video_url = none) (htu : v2.thumbnail_url = none)
    (h3 : upsertVideo cid2 v2 st1 = .ok st3) :
    countPostId st2 v.instagram_post_id = 1 ∧
    st3.videos.find? (fun r => r.instagram_post_id == v.instagram_post_id)
      = some (applyVideoConflictUpdate v2 r1) ∧
    (applyVideoConflictUpdate v2 r1).caption = v2.caption ∧
    (applyVideoConflictUpdate v2 r1).posted_date = r1.posted_date ∧
    (applyVideoConflictUpdate v2 r1).video_url = r1.video_url ∧
    (applyVideoConflictUpdate v2 r1).thumbnail_url = r1.thumbnail_url := by
  have hcount1 : countPostId st1 v.instagram_post_id = 1 := by
    rcases hfind : st.videos.find? (fun r => r.instagram_post_id == v.instagram_post_id)
      with _ | r0
    · have hv := upsertVideo_ok_not_found hfind h1
      unfold countPostId
      rw [hv, List.filter_append, filter_nil_of_find?_none _ _ hfind]
      simp [List.filter_cons]
    · have hv := upsertVideo_ok_found hfind h1
      unfold countPostId
      rw [hv, length_filter_map_ite (fun r => r.instagram_post_id == v.instagram_post_id)
        (applyVideoConflictUpdate v) st.videos (fun _ ha => ha)]
      have hge := one_le_count_of_find?_some _ st.videos r0 hfind
      unfold countPostId at hwf
      omega
  have hv2 := upsertVideo_ok_found hr1 h2
  have hcount2 : countPostId st2 v.instagram_post_id = 1 := by
    unfold countPostId
    rw [hv2, length_filter_map_ite (fun r => r.instagram_post_id == v.instagram_post_id)
      (applyVideoConflictUpdate v) st1.videos (fun _ ha => ha)]
    unfold countPostId at hcount1
    exact hcount1
  have hr1' : st1.videos.find? (fun r => r.instagram_post_id == v2.instagram_post_id)
      = some r1 := by
    rw [hkey]
    exact hr1
  have hv3 := upsertVideo_ok_found hr1' h3
  rw [hkey] at hv3
  have hfind3 : st3.videos.find? (fun r => r.instagram_post_id == v.instagram_post_id)
      = some (applyVideoConflictUpdate v2 r1) := by
    rw [hv3, find?_map_ite (fun r => r.instagram_post_id == v.instagram_post_id)
      (applyVideoConflictUpdate v2) st1.videos (fun _ ha => ha), hr1]
    rfl
  refine ⟨hcount2, hfind3, rfl, ?_, ?_, ?_⟩
  · simp [applyVideoConflictUpdate, coalesce, hpd]
  · simp [applyVideoConflictUpdate, coalesce, hvu]
  · simp [applyVideoConflictUpdate, coalesce, htu]

/-- The C6 scenario video: a full first fetch. -/
def vFull : VideoInput := ⟨"p1", some "sc", 1, some "c1", some "d1", some "u1", some "t1"⟩

/-- The C6 scenario second input: only the caption changed, nulls for the
immutable fields. -/
def vPartial : VideoInput := ⟨"p1", some "sc", 1, some "c2", none, none, none⟩

/-- The stored row after the first upsert of `vFull`. -/
def rowFull : VideoRow := ⟨1, 7, "p1", some "sc", 1, some "c1", some "d1", some "u1", some "t1"⟩

/-- Store after upserting `vFull` into the empty store. -/
def stAfterFirst : Store := { emptyStore with videos := [rowFull], nextVideoId := 2, clock := 1 }

/-- Store after upserting `vFull` a second time. -/
def stAfterSecond : Store := { stAfterFirst with videos := [rowFull], clock := 2 }

/-- Store after upserting `vPartial` over `stAfterFirst`. -/
def stAfterPartial : Store :=
  { stAfterFirst with
    videos := [⟨1, 7, "p1", some "sc", 1, some "c2", some "d1", some "u1", some "t1"⟩]
    clock := 2 }

/-- Witness for `video_upsert_idempotent_coalesce` on the concrete C6
scenario. -/
theorem video_upsert_idempotent_coalesce_witness :
    countPostId stAfterSecond "p1" = 1 ∧
    stAfterPartial.videos.find? (fun r => r.instagram_post_id == "p1")
      = some (applyVideoConflictUpdate vPartial rowFull) ∧
    (applyVideoConflictUpdate vPartial rowFull).caption = vPartial.caption ∧
    (applyVideoConflictUpdate vPartial rowFull).posted_date = rowFull.posted_date ∧
    (applyVideoConflictUpdate vPartial rowFull).video_url = rowFull.video_url ∧
    (applyVideoConflictUpdate vPartial rowFull).thumbnail_url = rowFull.thumbnail_url :=
  video_upsert_idempotent_coalesce emptyStore stAfterFirst stAfterSecond stAfterPartial 7 9
    vFull vPartial rowFull (by decide) rfl rfl rfl rfl rfl rfl rfl rfl

/-! ## Claim C5 — batch atomicity of the composite ingestion -/

/-- Statement `addCreator` only touches the creators table. -/
theorem addCreator_videos (st : Store) (u : String) (d : Option String) :
    (addCreator st u d).videos = st.videos := by
  unfold addCreator
  split <;> rfl

/-- Statement `addCreator` leaves the metrics table unchanged. -/
theorem addCreator_metrics (st : Store) (u : String) (d : Option String) :
    (addCreator st u d).metrics = st.metrics := by
  unfold addCreator
  split <;> rfl

/-- Statement `addCreator` leaves the sessions table unchanged. -/
theorem addCreator_sessions (st : Store) (u : String) (d : Option String) :
    (addCreator st u d).sessions = st.sessions := by
  unfold addCreator
  split <;> rfl

/-- Statement `upsertCreatorMeta` only touches the creators table. -/
theorem upsertCreatorMeta_videos (st : Store) (meta : CreatorMeta) :
    (upsertCreatorMeta st meta).videos = st.videos := by
  unfold upsertCreatorMeta
  rcases getCreatorByUsername st meta.username with _ | c <;> rfl

/-- Statement `upsertCreatorMeta` leaves the metrics table unchanged. -/
theorem upsertCreatorMeta_metrics (st : Store) (meta : CreatorMeta) :
    (upsertCreatorMeta st meta).metrics = st.metrics := by
  unfold upsertCreatorMeta
  rcases getCreatorByUsername st meta.username with _ | c <;> rfl

/-- Statement `upsertCreatorMeta` leaves the sessions table unchanged. -/
theorem upsertCreatorMeta_sessions (st : Store) (meta : CreatorMeta) :
    (upsertCreatorMeta st meta).sessions = st.sessions := by
  unfold upsertCreatorMeta
  rcases getCreatorByUsername st meta.username with _ | c <;> rfl

/-- The creator stage of the composite job only touches the creators
table: videos are unchanged. -/
theorem creatorUpsertStage_videos (st1 : Store) (u : String) (d : Option String) :
    (creatorUpsertStage st1 u d).videos = st1.videos := by
  unfold creatorUpsertStage ensureCreator
  rw [upsertCreatorMeta_videos]
  split
  · rfl
  · exact addCreator_videos st1 u d

/-- The creator stage leaves the metrics table unchanged. -/
theorem creatorUpsertStage_metrics (st1 : Store) (u : String) (d : Option String) :
    (creatorUpsertStage st1 u d).metrics = st1.metrics := by
  unfold creatorUpsertStage ensureCreator
  rw [upsertCreatorMeta_metrics]
  split
  · rfl
  · exact addCreator_metrics st1 u d

/-- The creator stage leaves the sessions table unchanged. -/
theorem creatorUpsertStage_sessions (st1 : Store) (u : String) (d : Option String) :
    (creatorUpsertStage st1 u d).sessions = st1.sessions := by
  unfold creatorUpsertStage ensureCreator
  rw [upsertCreatorMeta_sessions]
  split
  · rfl
  · exact addCreator_sessions st1 u d

/-- With a fresh session id, `beginScrapeSession` succeeds and appends the
`running` session row. -/
theorem beginScrapeSession_ok (st : Store) (sid : String) (cidOpt : Option ℕ)
    (md : Option String) (hfresh : findSession st sid = none) :
    beginScrapeSession st sid cidOpt md =
      .ok { st with
        sessions := st.sessions ++ [⟨sid, cidOpt, .running, st.clock, none, 0, none, md⟩]
        clock := st.clock + 1 } := by
  unfold beginScrapeSession
  rw [hfresh]
  rfl

/-- Looking a freshly appended session row up by its id finds it. -/
theorem findSession_append_fresh (st : Store) (sid : String) (row : SessionRow)
    (hfresh : findSession st sid = none) (hrow : (row.session_id == sid) = true) :
    List.find? (fun r => r.session_id == sid) (st.sessions ++ [row]) = some row := by
  rw [find?_append_none _ [row] hfresh]
  exact List.find?_cons_of_pos _ hrow

/-- A transaction whose result is an error returns the unchanged store
(rollback). -/
theorem runTransaction_rollback (stC : Store) (body : Store → Except DbError (Store × ℕ))
    (e : DbError) (h : (runTransaction stC body).2 = .error e) :
    (runTransaction stC body).1 = stC := by
  unfold runTransaction at h ⊢
  rcases hb : body stC with e3 | p
  · rfl
  · rcases p with ⟨stx, n⟩
    rw [hb] at h
    have h2 : (Except.ok n : Except DbError ℕ) = .error e := h
    exact Except.noConfusion h2

/-- If the session epilogue rethrows an error, the transaction itself
errored and the epilogue marked the session failed on the rolled-back
store. -/
theorem sessionFinishStage_error (txres : Store × Except DbError ℕ) (sid : String)
    (cid : ℕ) (e : DbError) (hfail : (sessionFinishStage txres sid cid).2 = .error e) :
    sessionFinishStage txres sid cid =
      (failScrapeSession txres.1 sid (dbErrorMessage e), .error e) ∧
    txres.2 = .error e := by
  rcases txres with ⟨st4, e2 | n⟩
  · have hfail2 : (Except.error e2 : Except DbError ℕ) = .error e := hfail
    injection hfail2 with he
    subst he
    exact ⟨rfl, rfl⟩
  · have hfail2 : (Except.ok n : Except DbError ℕ) = .error e := hfail
    exact Except.noConfusion hfail2

/-- Marking a session failed preserves videos and metrics and stamps the
failure status and error payload onto the stored session row. -/
theorem failScrape_parts (st0 st3 : Store) (sid msg : String) (row : SessionRow)
    (hv : st3.videos = st0.videos) (hm : st3.metrics = st0.metrics)
    (hsess : findSession st3 sid = some row) :
    (failScrapeSession st3 sid msg).videos = st0.videos ∧
    (failScrapeSession st3 sid msg).metrics = st0.metrics ∧
    (findSession (failScrapeSession st3 sid msg) sid).map (fun q => (q.status, q.errors))
      = some (SessionStatus.failed, some msg) := by
  refine ⟨hv, hm, ?_⟩
  rw [findSession_fail, hsess]
  rfl

/-- Once the session row has been created, the body of `profileAndVideos`
is the continuation of the run on the extended store. -/
theorem profileAndVideosRun_eq_body (st : Store) (username : String)
    (displayName : Option String) (vids : List ScrapedVideo) (sid : String)
    (failOn : ℕ → Bool) (hfresh : findSession st sid = none) :
    profileAndVideosRun st username displayName vids sid failOn =
      profileAndVideosBody
        { st with
          sessions := st.sessions ++ [⟨sid, none, .running, st.clock, none, 0, none, some username⟩]
          clock := st.clock + 1 }
        username displayName vids sid failOn := by
  unfold profileAndVideosRun
  rw [beginScrapeSession_ok st sid none (some username) hfresh]

/-- If anything inside the body of the composite job throws, the
transactional batch leaves videos and metrics exactly as they were when
the body started, and the session is marked failed with the error
message. -/
theorem profileAndVideosBody_error_parts (st1 : Store) (username : String)
    (displayName : Option String) (vids : List ScrapedVideo) (sid : String)
    (failOn : ℕ → Bool) (e : DbError) (row : SessionRow)
    (hsess : findSession st1 sid = some row)
    (hfail : (profileAndVideosBody st1 username displayName vids sid failOn).2 = .error e) :
    (profileAndVideosBody st1 username displayName vids sid failOn).1.videos = st1.videos ∧
    (profileAndVideosBody st1 username displayName vids sid failOn).1.metrics = st1.metrics ∧
    (findSession (profileAndVideosBody st1 username displayName vids sid failOn).1 sid).map
        (fun q => (q.status, q.errors))
      = some (SessionStatus.failed, some (dbErrorMessage e)) := by
  have hsess3 : findSession (creatorUpsertStage st1 username displayName) sid = some row := by
    unfold findSession at hsess ⊢
    rw [creatorUpsertStage_sessions]
    exact hsess
  unfold profileAndVideosBody at hfail ⊢
  generalize hcr : getCreatorByUsername (creatorUpsertStage st1 username displayName) username
    = copt at hfail ⊢
  rcases copt with _ | creator
  · have hfail2 : (Except.error DbError.missingCreator : Except DbError ℕ) = .error e := hfail
    injection hfail2 with he
    rw [← he]
    exact failScrape_parts st1 (creatorUpsertStage st1 username displayName) sid
      (dbErrorMessage .missingCreator) row
      (creatorUpsertStage_videos st1 username displayName)
      (creatorUpsertStage_metrics st1 username displayName) hsess3
  · have hfail3 : (sessionFinishStage
        (runTransaction (creatorUpsertStage st1 username displayName)
          (ingestLoop creator.id sid failOn vids 0 0)) sid creator.id).2 = .error e := hfail
    obtain ⟨heq, htx2⟩ := sessionFinishStage_error _ sid creator.id e hfail3
    have hroll : (runTransaction (creatorUpsertStage st1 username displayName)
        (ingestLoop creator.id sid failOn vids 0 0)).1
        = creatorUpsertStage st1 username displayName :=
      runTransaction_rollback _ _ e htx2
    have hmain : ∀ X : Store × Except DbError ℕ,
        X = sessionFinishStage
          (runTransaction (creatorUpsertStage st1 username displayName)
            (ingestLoop creator.id sid failOn vids 0 0)) sid creator.id →
        X.1.videos = st1.videos ∧ X.1.metrics = st1.metrics ∧
        (findSession X.1 sid).map (fun q => (q.status, q.errors))
          = some (SessionStatus.failed, some (dbErrorMessage e)) := by
      intro X hX
      rw [heq, hroll] at hX
      rw [hX]
      exact failScrape_parts st1 (creatorUpsertStage st1 username displayName) sid
        (dbErrorMessage e) row
        (creatorUpsertStage_videos st1 username displayName)
        (creatorUpsertStage_metrics st1 username displayName) hsess3
    exact hmain _ rfl

/-- C5: for every ingestion batch of the composite profile-and-videos
job, if any storage operation inside the batch fails (injected through
`failOn`, or a constraint violation raised by an upsert), no video upsert
and no metric sample of the batch is visible afterwards — the per-call
writes run inside a single transaction that rolls back as a whole — and
the session is marked `failed` with the error payload attached. -/
theorem ingest_batch_atomic (st : Store) (username : String) (displayName : Option String)
    (vids : List ScrapedVideo) (sid : String) (failOn : ℕ → Bool) (e : DbError)
    (hfresh : findSession st sid = none)
    (hfail : (profileAndVideosRun st username displayName vids sid failOn).2 = .error e) :
    (profileAndVideosRun st username displayName vids sid failOn).1.videos = st.videos ∧
    (profileAndVideosRun st username displayName vids sid failOn).1.metrics = st.metrics ∧
    (findSession (profileAndVideosRun st username displayName vids sid failOn).1 sid).map
        (fun q => (q.status, q.errors))
      = some (SessionStatus.failed, some (dbErrorMessage e)) := by
  rw [profileAndVideosRun_eq_body st username displayName vids sid failOn hfresh] at hfail ⊢
  have hsess : findSession
      { st with
        sessions := st.sessions ++ [⟨sid, none, .running, st.clock, none, 0, none, some username⟩]
        clock := st.clock + 1 } sid
      = some ⟨sid, none, .running, st.clock, none, 0, none, some username⟩ := by
    unfold findSession
    exact findSession_append_fresh st sid _ hfresh (by simp)
  exact profileAndVideosBody_error_parts _ username displayName vids sid failOn e _ hsess hfail

/-- The single scraped video of the C5 witness scenario. -/
def vBatch : ScrapedVideo :=
  ⟨"p1", some "sc1", true, some "cap", some "d", some "u", some "t",
    some 10, some 5, some 1, some 0, some 0⟩

/-- Witness for `ingest_batch_atomic`: the batch upserts the video
(storage call 0) and then fails at the metric insert (storage call 1); the
already-executed upsert is rolled back, so the empty store is unchanged
and the session is failed with the error payload. -/
theorem ingest_batch_atomic_witness :
    (profileAndVideosRun emptyStore "alice" (some "Alice") [vBatch] "sw"
        (fun k => k == 1)).1.videos = emptyStore.videos ∧
    (profileAndVideosRun emptyStore "alice" (some "Alice") [vBatch] "sw"
        (fun k => k == 1)).1.metrics = emptyStore.metrics ∧
    (findSession (profileAndVideosRun emptyStore "alice" (some "Alice") [vBatch] "sw"
        (fun k => k == 1)).1 "sw").map (fun q => (q.status, q.errors))
      = some (SessionStatus.failed, some "insertVideoMetrics") :=
  ingest_batch_atomic emptyStore "alice" (some "Alice") [vBatch] "sw" (fun k => k == 1)
    (.storageFailure "insertVideoMetrics") rfl rfl

/-! ## Claim C10 — totality and safety of parseCount -/

/-- Evaluation rule for `Math.round`: `jsRound q = z` once
`z ≤ q + 1/2 < z + 1`. -/
theorem jsRound_eq (q : ℚ) (z : ℤ) (h1 : (z : ℚ) ≤ q + 1 / 2) (h2 : q + 1 / 2 < z + 1) :
    jsRound q = z := by
  unfold jsRound
  rw [Int.floor_eq_iff]
  exact ⟨h1, h2⟩

/-- Decimal literals never have negative values. -/
theorem decimalValue_nonneg (ip fp : List Char) : 0 ≤ decimalValue ip fp := by
  unfold decimalValue
  positivity

/-- Every value captured by the number pattern is non-negative. -/
theorem matchNumberAt_nonneg (s : List Char) (v : ℚ) (rest : List Char)
    (h : matchNumberAt s = some (v, rest)) : 0 ≤ v := by
  unfold matchNumberAt at h
  repeat' split at h
  all_goals first
    | exact Option.noConfusion h
    | (injection h with h1; cases h1; exact decimalValue_nonneg _ _)

/-- Every value found anywhere in the string is non-negative. -/
theorem firstNumberMatch_nonneg (s : List Char) (v : ℚ) (rest : List Char)
    (h : firstNumberMatch s = some (v, rest)) : 0 ≤ v := by
  induction s with
  | nil => exact Option.noConfusion h
  | cons c cs ih =>
    have hdef : firstNumberMatch (c :: cs) =
        (match matchNumberAt (c :: cs) with
          | some r => some r
          | none => firstNumberMatch cs) := rfl
    rw [hdef] at h
    rcases hm : matchNumberAt (c :: cs) with _ | r
    · rw [hm] at h
      exact ih h
    · rw [hm] at h
      injection h with h1
      cases h1
      exact matchNumberAt_nonneg _ _ _ hm

/-- The suffix scale is one of 1, 1e3, 1e6, 1e9 — always positive. -/
theorem suffixScale_pos (rest : List Char) : 0 < suffixScale rest := by
  rcases rest with _ | ⟨c, cs⟩
  · norm_num [suffixScale]
  · simp only [suffixScale]
    split_ifs <;> norm_num

/-- The fallback `Number()` value, when not NaN, is non-negative. -/
theorem jsNumberOfDigitsDots_nonneg (s : List Char) (q : ℚ)
    (h : jsNumberOfDigitsDots s = some q) : 0 ≤ q := by
  unfold jsNumberOfDigitsDots at h
  repeat' split at h
  all_goals first
    | exact Option.noConfusion h
    | (injection h with h1; rw [← h1]; exact decimalValue_nonneg _ _)
    | (injection h with h1; rw [← h1])

/-- Helper `takeDigits` does not consume a non-digit head. -/
theorem takeDigits_nondigit (c : Char) (cs : List Char) (h : c.isDigit = false) :
    takeDigits (c :: cs) = ([], c :: cs) := by
  simp [takeDigits, h]

/-- The number pattern cannot match at a position of a digit-free
string. -/
theorem matchNumberAt_none_of_nodigit (s : List Char)
    (hnd : ∀ c ∈ s, c.isDigit = false) : matchNumberAt s = none := by
  rcases s with _ | ⟨c, cs⟩
  · rfl
  · have hc : c.isDigit = false := hnd c (List.mem_cons_self c cs)
    rcases cs with _ | ⟨c2, rest2⟩
    · simp [matchNumberAt, hc]
    · have hc2 : c2.isDigit = false := hnd c2 (by simp)
      simp [matchNumberAt, hc, hc2]

/-- A digit-free string has no number match anywhere. -/
theorem firstNumberMatch_none_of_nodigit (s : List Char)
    (hnd : ∀ c ∈ s, c.isDigit = false) : firstNumberMatch s = none := by
  induction s with
  | nil => rfl
  | cons c cs ih =>
    have hdef : firstNumberMatch (c :: cs) =
        (match matchNumberAt (c :: cs) with
          | some r => some r
          | none => firstNumberMatch cs) := rfl
    rw [hdef, matchNumberAt_none_of_nodigit (c :: cs) hnd]
    exact ih (fun x hx => hnd x (List.mem_cons_of_mem c hx))

/-- Applying `Number()` to a string of dots: the empty string is 0, anything else
is NaN. -/
theorem jsNumberOfDigitsDots_dots (t : List Char) (hdots : ∀ c ∈ t, c = '.') :
    jsNumberOfDigitsDots t = some 0 ∨ jsNumberOfDigitsDots t = none := by
  rcases t with _ | ⟨c, rest⟩
  · left
    rfl
  · right
    have hc : c = '.' := hdots c (List.mem_cons_self _ _)
    subst hc
    rcases rest with _ | ⟨c2, rest2⟩
    · rfl
    · have hc2 : c2 = '.' := hdots c2 (by simp)
      subst hc2
      rfl

/-- Every return path of `parseCount` yields a non-negative integer. -/
theorem parseCount_nonneg (raw : Option String) : 0 ≤ parseCount raw := by
  rcases raw with _ | str
  · exact le_refl (0 : ℤ)
  · show (0 : ℤ) ≤ (match firstNumberMatch (stripSeparators str.toList) with
      | some (val, rest) => jsRound (val * suffixScale rest)
      | none =>
        match jsNumberOfDigitsDots (keepDigitsDots (stripSeparators str.toList)) with
        | some q => ⌊q⌋
        | none => (0 : ℤ))
    rcases hm : firstNumberMatch (stripSeparators str.toList) with _ | ⟨val, rest⟩
    · rcases hn : jsNumberOfDigitsDots (keepDigitsDots (stripSeparators str.toList)) with _ | q
      · exact le_refl (0 : ℤ)
      · exact Int.floor_nonneg.mpr (jsNumberOfDigitsDots_nonneg _ _ hn)
    · have hv := firstNumberMatch_nonneg _ _ _ hm
      have hs := suffixScale_pos rest
      have hq : (0 : ℚ) ≤ val * suffixScale rest + 1 / 2 :=
        add_nonneg (mul_nonneg hv hs.le) (by norm_num)
      exact Int.floor_nonneg.mpr hq

/-- A digit-free input parses to 0: the regex cannot match, and the
fallback `Number()` sees only dots (0 for the empty string, `NaN → 0`
otherwise). -/
theorem parseCount_nodigit (str : String) (hnd : ∀ c ∈ str.toList, c.isDigit = false) :
    parseCount (some str) = 0 := by
  have hnd2 : ∀ c ∈ stripSeparators str.toList, c.isDigit = false := by
    intro c hc
    exact hnd c (List.mem_of_mem_filter hc)
  have h1 : firstNumberMatch (stripSeparators str.toList) = none :=
    firstNumberMatch_none_of_nodigit _ hnd2
  have hdots : ∀ c ∈ keepDigitsDots (stripSeparators str.toList), c = '.' := by
    intro c hc
    have hp := List.of_mem_filter hc
    have hcd : c.isDigit = false := hnd2 c (List.mem_of_mem_filter hc)
    rcases Bool.or_eq_true_iff.mp hp with h | h
    · rw [hcd] at h
      cases h
    · exact eq_of_beq h
  have hdef : parseCount (some str) =
      (match firstNumberMatch (stripSeparators str.toList) with
        | some (val, rest) => jsRound (val * suffixScale rest)
        | none =>
          match jsNumberOfDigitsDots (keepDigitsDots (stripSeparators str.toList)) with
          | some q => ⌊q⌋
          | none => 0) := rfl
  rw [hdef, h1]
  rcases jsNumberOfDigitsDots_dots _ hdots with h2 | h2
  · rw [h2]
    exact Int.floor_zero
  · rw [h2]

/-- C10: `parseCount` is total and returns a non-negative integer for
every input; `null` and digit-free garbage return 0; a numeric token with
a (case-insensitive) `k`, `m` or `b` suffix is scaled by 1e3, 1e6 or 1e9
and rounded — `"1.2k"` parses to 1200, `"1,234"` to 1234, `"3.4M"` to
3400000 and `"0.5b"` to 500000000. -/
theorem parseCount_total_nonneg :
    (∀ raw : Option String, 0 ≤ parseCount raw) ∧
    parseCount none = 0 ∧
    (∀ s : String, (∀ c ∈ s.toList, c.isDigit = false) → parseCount (some s) = 0) ∧
    parseCount (some "1.2k") = 1200 ∧
    parseCount (some "1,234") = 1234 ∧
    parseCount (some "3.4M") = 3400000 ∧
    parseCount (some "0.5b") = 500000000 := by
  refine ⟨parseCount_nonneg, rfl, parseCount_nodigit, ?_, ?_, ?_, ?_⟩
  · have h : parseCount (some "1.2k")
        = jsRound (decimalValue ['1'] ['2'] * suffixScale ['k']) := rfl
    rw [h, show suffixScale ['k'] = 1000 from rfl]
    apply jsRound_eq <;>
      norm_num [decimalValue, show digitsToNat ['1'] = 1 from rfl,
        show digitsToNat ['2'] = 2 from rfl]
  · have h : parseCount (some "1,234")
        = jsRound (decimalValue ['1', '2', '3', '4'] [] * suffixScale []) := rfl
    rw [h, show suffixScale [] = 1 from rfl]
    apply jsRound_eq <;>
      norm_num [decimalValue, show digitsToNat ['1', '2', '3', '4'] = 1234 from rfl,
        show digitsToNat [] = 0 from rfl]
  · have h : parseCount (some "3.4M")
        = jsRound (decimalValue ['3'] ['4'] * suffixScale ['M']) := rfl
    rw [h, show suffixScale ['M'] = 1000000 from rfl]
    apply jsRound_eq <;>
      norm_num [decimalValue, show digitsToNat ['3'] = 3 from rfl,
        show digitsToNat ['4'] = 4 from rfl]
  · have h : parseCount (some "0.5b")
        = jsRound (decimalValue ['0'] ['5'] * suffixScale ['b']) := rfl
    rw [h, show suffixScale ['b'] = 1000000000 from rfl]
    apply jsRound_eq <;>
      norm_num [decimalValue, show digitsToNat ['0'] = 0 from rfl,
        show digitsToNat ['5'] = 5 from rfl]

/-- Witness for `parseCount_total_nonneg` at the garbage input of the
repository's own unit test. -/
theorem parseCount_total_nonneg_witness : parseCount (some "likes: --") = 0 :=
  parseCount_total_nonneg.2.2.1 "likes: --" (by decide)

end IG
